import Mathlib

/-!
Verification of the walk-the-dog runner core against its specification.

The development shallowly embeds the Rust sources (src/engine.rs and
src/game.rs) into Lean: machine integers (i16, u8) are modelled as Int/Nat —
all quantities involved stay far from the 16-bit range in the properties
proved here — and fallible or panicking code paths return Option (none
models a panic such as `expect("Cell not found")`). Side-effecting
collaborators (audio playback, rendering, the DOM) are carried as inert
handle values. The module `segments` of the repository is not among the
source files; its two catalog functions are modelled from the
specification's words and marked as such below.
-/

namespace WalkTheDog

/-! ## Geometry primitives (src/engine.rs) -/

/-- 2D coordinate or velocity vector (`Point` in src/engine.rs). -/
structure Point where
  x : Int
  y : Int
deriving DecidableEq

/-- Rust `Point::default()` — both components zero. -/
def Point.default : Point := ⟨0, 0⟩

/-- Axis-aligned rectangle (`Rect` in src/engine.rs). -/
structure Rect where
  position : Point
  width : Int
  height : Int
deriving DecidableEq

def Rect.new (position : Point) (width height : Int) : Rect :=
  ⟨position, width, height⟩

def Rect.new_from_x_y (x y width height : Int) : Rect :=
  ⟨⟨x, y⟩, width, height⟩

def Rect.x (r : Rect) : Int := r.position.x

def Rect.y (r : Rect) : Int := r.position.y

def Rect.set_x (r : Rect) (x : Int) : Rect :=
  { r with position := { r.position with x := x } }

def Rect.right (r : Rect) : Int := r.x + r.width

def Rect.bottom (r : Rect) : Int := r.y + r.height

/-- Rust `Rect::intersects` (src/engine.rs lines 62-67). -/
def Rect.intersects (r rect : Rect) : Bool :=
  decide (r.x < rect.right) && decide (r.right > rect.x)
    && decide (r.y < rect.bottom) && decide (r.bottom > rect.y)

/-! ## Sprite sheets, images, audio handles (src/engine.rs) -/

structure SheetRect where
  x : Int
  y : Int
  w : Int
  h : Int
deriving DecidableEq

/-- Rust `From<SheetRect> for Rect`. -/
def SheetRect.toRect (v : SheetRect) : Rect :=
  Rect.new_from_x_y v.x v.y v.w v.h

structure Cell where
  frame : SheetRect
  sprite_source_size : SheetRect
deriving DecidableEq

/-- Rust `Sheet` — the HashMap String → Cell is modelled as an association list. -/
structure Sheet where
  frames : List (String × Cell)
deriving DecidableEq

/-- Rust `self.frames.get(name)`. -/
def Sheet.get (s : Sheet) (name : String) : Option Cell :=
  s.frames.lookup name

/-- Opaque DOM image handle: only the data the core reads from it. -/
structure HtmlImageElement where
  src : String
  width : Int
  height : Int
deriving DecidableEq

structure SpriteSheet where
  sheet : Sheet
  image : HtmlImageElement
deriving DecidableEq

def SpriteSheet.cell (s : SpriteSheet) (name : String) : Option Cell :=
  s.sheet.get name

/-- Rust `Image` in src/engine.rs: an element plus its bounding box. -/
structure Image where
  element : HtmlImageElement
  bounding_box : Rect
deriving DecidableEq

def Image.new (element : HtmlImageElement) (position : Point) : Image :=
  ⟨element, Rect.new position element.width element.height⟩

def Image.set_x (img : Image) (x : Int) : Image :=
  { img with bounding_box := img.bounding_box.set_x x }

def Image.move_horizontally (img : Image) (distance : Int) : Image :=
  img.set_x (img.bounding_box.x + distance)

def Image.right (img : Image) : Int := img.bounding_box.right

/-- Audio context handle; playback is fire-and-forget, so it carries no state. -/
structure Audio where
  id : Nat
deriving DecidableEq

/-- Loaded sound handle. -/
structure Sound where
  id : Nat
deriving DecidableEq

/-! ## Constants of src/game.rs and its red_hat_boy_states module -/

def HEIGHT : Int := 600
def TIMELINE_MINIMUM : Int := 1000
def OBSTACLE_BUFFER : Int := 20
def FLOOR : Int := 479
def PLAYER_HEIGHT : Int := HEIGHT - FLOOR
def STARTING_POINT : Int := -20
def IDLE_FRAMES : Nat := 29
def RUNNING_FRAMES : Nat := 23
def SLIDING_FRAMES : Nat := 14
def JUMPING_FRAMES : Nat := 35
def FALLING_FRAMES : Nat := 29
def RUNNING_SPEED : Int := 4
def JUMP_SPEED : Int := -25
def GRAVITY : Int := 1
def TERMINAL_VELOCITY : Int := 20

/-! ## The character's physics context (RedHatBoyContext) -/

structure RedHatBoyContext where
  frame : Nat
  position : Point
  velocity : Point
  audio : Audio
  jump_sound : Sound
deriving DecidableEq

/-- Rust `RedHatBoyContext::update` (src/game.rs lines 449-467): gravity up to the
terminal velocity, frame increment with wrap, vertical integration, floor
clamp. The Rust method mutates `self` field by field in that order; the
sequential result is written here as one record update (`position.y` is
integrated with the already-updated velocity, as in the source). -/
def RedHatBoyContext.update (c : RedHatBoyContext) (frame_count : Nat) :
    RedHatBoyContext :=
  let new_vy :=
    if c.velocity.y < TERMINAL_VELOCITY then c.velocity.y + GRAVITY else c.velocity.y
  let new_frame := if c.frame < frame_count then c.frame + 1 else 0
  let new_y := c.position.y + new_vy
  { c with
    frame := new_frame
    velocity := { c.velocity with y := new_vy }
    position := { c.position with y := if new_y > FLOOR then FLOOR else new_y } }

def RedHatBoyContext.reset_frame (c : RedHatBoyContext) : RedHatBoyContext :=
  { c with frame := 0 }

def RedHatBoyContext.run_right (c : RedHatBoyContext) : RedHatBoyContext :=
  { c with velocity := { c.velocity with x := c.velocity.x + RUNNING_SPEED } }

def RedHatBoyContext.set_vertical_velocity (c : RedHatBoyContext) (y : Int) :
    RedHatBoyContext :=
  { c with velocity := { c.velocity with y := y } }

def RedHatBoyContext.stop (c : RedHatBoyContext) : RedHatBoyContext :=
  { c with velocity := { c.velocity with x := 0, y := 0 } }

def RedHatBoyContext.set_on (c : RedHatBoyContext) (position : Int) :
    RedHatBoyContext :=
  { c with position := { c.position with y := position - PLAYER_HEIGHT } }

/-- Rust `play_jump_sound` only triggers audio (errors are logged and dropped);
the context is returned unchanged. -/
def RedHatBoyContext.play_jump_sound (c : RedHatBoyContext) : RedHatBoyContext :=
  c

/-! ## Character state machine (mod red_hat_boy_states and RedHatBoyStateMachine) -/

inductive Event where
  | run
  | jump
  | slide
  | knockOut
  | land (y : Int)
  | update
deriving DecidableEq

/-- The six typestates, each carrying its context. The Rust zero-sized state
markers carry no data, so each variant is just its context. -/
inductive RedHatBoyStateMachine where
  | idle (c : RedHatBoyContext)
  | running (c : RedHatBoyContext)
  | sliding (c : RedHatBoyContext)
  | jumping (c : RedHatBoyContext)
  | falling (c : RedHatBoyContext)
  | knockedOut (c : RedHatBoyContext)
deriving DecidableEq

/-- Rust `RedHatBoyState<Idle>::new` — the fresh context. -/
def idleNew (audio : Audio) (jump_sound : Sound) : RedHatBoyContext :=
  { frame := 0
    position := ⟨STARTING_POINT, FLOOR⟩
    velocity := Point.default
    audio := audio
    jump_sound := jump_sound }

def idleUpdate (c : RedHatBoyContext) : RedHatBoyContext := c.update IDLE_FRAMES

def idleRun (c : RedHatBoyContext) : RedHatBoyContext :=
  c.reset_frame.run_right

def runningUpdate (c : RedHatBoyContext) : RedHatBoyContext := c.update RUNNING_FRAMES

def runningSlide (c : RedHatBoyContext) : RedHatBoyContext := c.reset_frame

def runningJump (c : RedHatBoyContext) : RedHatBoyContext :=
  ((c.set_vertical_velocity JUMP_SPEED).reset_frame).play_jump_sound

def runningKnockOut (c : RedHatBoyContext) : RedHatBoyContext :=
  c.reset_frame.stop

def runningLandOn (c : RedHatBoyContext) (y : Int) : RedHatBoyContext := c.set_on y

def slidingStand (c : RedHatBoyContext) : RedHatBoyContext := c.reset_frame

def slidingKnockOut (c : RedHatBoyContext) : RedHatBoyContext :=
  c.reset_frame.stop

def slidingLandOn (c : RedHatBoyContext) (y : Int) : RedHatBoyContext := c.set_on y

inductive SlidingEndState where
  | complete (c : RedHatBoyContext)
  | sliding (c : RedHatBoyContext)

/-- Rust `RedHatBoyState<Sliding>::update`. -/
def slidingUpdate (c : RedHatBoyContext) : SlidingEndState :=
  let c := c.update SLIDING_FRAMES
  if SLIDING_FRAMES ≤ c.frame then .complete (slidingStand c) else .sliding c

def jumpingKnockOut (c : RedHatBoyContext) : RedHatBoyContext :=
  c.reset_frame.stop

def jumpingLandOn (c : RedHatBoyContext) (y : Int) : RedHatBoyContext :=
  c.reset_frame.set_on y

inductive JumpingEndState where
  | complete (c : RedHatBoyContext)
  | jumping (c : RedHatBoyContext)

/-- Rust `RedHatBoyState<Jumping>::update`. -/
def jumpingUpdate (c : RedHatBoyContext) : JumpingEndState :=
  let c := c.update JUMPING_FRAMES
  if FLOOR ≤ c.position.y then .complete (jumpingLandOn c HEIGHT) else .jumping c

/-- Rust `RedHatBoyState<Falling>::down`. -/
def fallingDown (c : RedHatBoyContext) : RedHatBoyContext := c

inductive FallingEndState where
  | complete (c : RedHatBoyContext)
  | falling (c : RedHatBoyContext)

/-- Rust `RedHatBoyState<Falling>::update`. -/
def fallingUpdate (c : RedHatBoyContext) : FallingEndState :=
  let c := c.update FALLING_FRAMES
  if FALLING_FRAMES ≤ c.frame then .complete (fallingDown c) else .falling c

def SlidingEndState.toMachine : SlidingEndState → RedHatBoyStateMachine
  | .complete c => .running c
  | .sliding c => .sliding c

def JumpingEndState.toMachine : JumpingEndState → RedHatBoyStateMachine
  | .complete c => .running c
  | .jumping c => .jumping c

def FallingEndState.toMachine : FallingEndState → RedHatBoyStateMachine
  | .complete c => .knockedOut c
  | .falling c => .falling c

/-- Rust `RedHatBoyStateMachine::transition` (src/game.rs lines 285-303): the
defined arms in source order, then the identity fallback. -/
def transition (m : RedHatBoyStateMachine) (e : Event) : RedHatBoyStateMachine :=
  match m, e with
  | .idle c, .run => .running (idleRun c)
  | .running c, .slide => .sliding (runningSlide c)
  | .running c, .jump => .jumping (runningJump c)
  | .running c, .knockOut => .falling (runningKnockOut c)
  | .jumping c, .knockOut => .falling (jumpingKnockOut c)
  | .sliding c, .knockOut => .falling (slidingKnockOut c)
  | .running c, .land y => .running (runningLandOn c y)
  | .sliding c, .land y => .sliding (slidingLandOn c y)
  | .jumping c, .land y => .running (jumpingLandOn c y)
  | .idle c, .update => .idle (idleUpdate c)
  | .running c, .update => .running (runningUpdate c)
  | .sliding c, .update => (slidingUpdate c).toMachine
  | .jumping c, .update => (jumpingUpdate c).toMachine
  | .falling c, .update => (fallingUpdate c).toMachine
  | m, _ => m

def RedHatBoyStateMachine.context : RedHatBoyStateMachine → RedHatBoyContext
  | .idle c => c
  | .running c => c
  | .sliding c => c
  | .jumping c => c
  | .falling c => c
  | .knockedOut c => c

/-- Rust `frame_name()` of each state (the per-state constants). -/
def RedHatBoyStateMachine.frameNameLabel : RedHatBoyStateMachine → String
  | .idle _ => "Idle"
  | .running _ => "Run"
  | .sliding _ => "Slide"
  | .jumping _ => "Jump"
  | .falling _ => "Dead"
  | .knockedOut _ => "Dead"

/-- Rust `RedHatBoyStateMachine::update` delegates to `transition(Event::Update)`. -/
def RedHatBoyStateMachine.update (m : RedHatBoyStateMachine) : RedHatBoyStateMachine :=
  transition m .update

def RedHatBoyStateMachine.knocked_out : RedHatBoyStateMachine → Bool
  | .knockedOut _ => true
  | _ => false

/-- n machine ticks (repeated `update`). -/
def machineIterate : Nat → RedHatBoyStateMachine → RedHatBoyStateMachine
  | 0, m => m
  | n + 1, m => machineIterate n m.update

/-! ## RedHatBoy (src/game.rs lines 162-272) -/

structure RedHatBoy where
  state_machine : RedHatBoyStateMachine
  sprite_sheet : Sheet
  image : HtmlImageElement
deriving DecidableEq

def RedHatBoy.new (sheet : Sheet) (image : HtmlImageElement) (audio : Audio)
    (jump_sound : Sound) : RedHatBoy :=
  { state_machine := .idle (idleNew audio jump_sound)
    sprite_sheet := sheet
    image := image }

def RedHatBoy.update (b : RedHatBoy) : RedHatBoy :=
  { b with state_machine := b.state_machine.update }

def RedHatBoy.run_right (b : RedHatBoy) : RedHatBoy :=
  { b with state_machine := transition b.state_machine .run }

def RedHatBoy.slide (b : RedHatBoy) : RedHatBoy :=
  { b with state_machine := transition b.state_machine .slide }

def RedHatBoy.jump (b : RedHatBoy) : RedHatBoy :=
  { b with state_machine := transition b.state_machine .jump }

def RedHatBoy.knock_out (b : RedHatBoy) : RedHatBoy :=
  { b with state_machine := transition b.state_machine .knockOut }

def RedHatBoy.land_on (b : RedHatBoy) (position_y : Int) : RedHatBoy :=
  { b with state_machine := transition b.state_machine (.land position_y) }

def RedHatBoy.pos_y (b : RedHatBoy) : Int := b.state_machine.context.position.y

def RedHatBoy.velocity_y (b : RedHatBoy) : Int := b.state_machine.context.velocity.y

def RedHatBoy.walking_speed (b : RedHatBoy) : Int := b.state_machine.context.velocity.x

/-- Rust `format!("{} ({}).png", label, frame / 3 + 1)`. -/
def RedHatBoy.frame_name (b : RedHatBoy) : String :=
  b.state_machine.frameNameLabel ++ " (" ++ toString (b.state_machine.context.frame / 3 + 1)
    ++ ").png"

def RedHatBoy.current_sprite (b : RedHatBoy) : Option Cell :=
  b.sprite_sheet.get b.frame_name

/-- Rust `destination_box`; the source panics (`expect("Cell not found")`) on a
missing sprite, modelled as `none`. -/
def RedHatBoy.destination_box (b : RedHatBoy) : Option Rect :=
  b.current_sprite.map fun sprite =>
    Rect.new_from_x_y (b.state_machine.context.position.x + sprite.sprite_source_size.x)
      (b.state_machine.context.position.y + sprite.sprite_source_size.y)
      sprite.frame.w sprite.frame.h

/-- Rust `bounding_box`: the destination box shrunk by the fixed offsets
X_OFFSET = 18, Y_OFFSET = 14, WIDTH_OFFSET = 28. -/
def RedHatBoy.bounding_box (b : RedHatBoy) : Option Rect :=
  b.destination_box.map fun bb =>
    { position := ⟨bb.position.x + 18, bb.position.y + 14⟩
      width := bb.width - 28
      height := bb.height - 14 }

def RedHatBoy.knocked_out (b : RedHatBoy) : Bool := b.state_machine.knocked_out

/-- Rust `RedHatBoy::reset`: a new boy reusing the sheet, image and audio handles. -/
def RedHatBoy.reset (boy : RedHatBoy) : RedHatBoy :=
  RedHatBoy.new boy.sprite_sheet boy.image boy.state_machine.context.audio
    boy.state_machine.context.jump_sound

/-! ## Obstacles (src/game.rs lines 29-160) -/

structure Platform where
  sheet : SpriteSheet
  bounding_boxes : List Rect
  sprites : List Cell
  position : Point
deriving DecidableEq

/-- Rust `Platform::new` (src/game.rs lines 44-71): sprite names are looked up with
`filter_map` (a missing name is dropped), bounding boxes are translated to the
platform's position. -/
def Platform.new (sheet : SpriteSheet) (position : Point) (sprite_names : List String)
    (bounding_boxes : List Rect) : Platform :=
  { sheet := sheet
    sprites := sprite_names.filterMap fun sprite_name => sheet.cell sprite_name
    bounding_boxes := bounding_boxes.map fun bounding_box =>
      Rect.new_from_x_y (bounding_box.x + position.x) (bounding_box.y + position.y)
        bounding_box.width bounding_box.height
    position := position }

/-- Rust `Platform::check_intersection` (src/game.rs lines 110-122). The boy's
bounding box is computed inside the `find` closure, so with no bounding boxes
it is never computed (and a missing sprite, `none`, only panics when at least
one box is examined). -/
def Platform.check_intersection (p : Platform) (boy : RedHatBoy) : Option RedHatBoy :=
  if p.bounding_boxes.isEmpty then some boy
  else
    match boy.bounding_box with
    | none => none
    | some bb =>
      match p.bounding_boxes.find? (fun bounding_box => bb.intersects bounding_box) with
      | some box_to_land_on =>
        if boy.velocity_y > 0 ∧ boy.pos_y < p.position.y then
          some (boy.land_on box_to_land_on.y)
        else
          some boy.knock_out
      | none => some boy

def Platform.move_horizontally (p : Platform) (x : Int) : Platform :=
  { p with
    position := { p.position with x := p.position.x + x }
    bounding_boxes := p.bounding_boxes.map fun b => b.set_x (b.position.x + x) }

/-- Rust `Platform::right`: the last bounding box's right edge, 0 when there is none. -/
def Platform.right (p : Platform) : Int :=
  (p.bounding_boxes.getLast?.map Rect.right).getD 0

structure Barrier where
  image : Image
deriving DecidableEq

def Barrier.new (image : Image) : Barrier := ⟨image⟩

/-- Rust `Barrier::check_intersection` (src/game.rs lines 143-147). -/
def Barrier.check_intersection (br : Barrier) (boy : RedHatBoy) : Option RedHatBoy :=
  boy.bounding_box.map fun bb =>
    if bb.intersects br.image.bounding_box then boy.knock_out else boy

def Barrier.move_horizontally (br : Barrier) (x : Int) : Barrier :=
  { br with image := br.image.move_horizontally x }

def Barrier.right (br : Barrier) : Int := br.image.right

/-- The `dyn Obstacle` trait objects: exactly two implementations. -/
inductive Obstacle where
  | platform (p : Platform)
  | barrier (b : Barrier)
deriving DecidableEq

def Obstacle.check_intersection : Obstacle → RedHatBoy → Option RedHatBoy
  | .platform p, boy => p.check_intersection boy
  | .barrier b, boy => b.check_intersection boy

def Obstacle.move_horizontally : Obstacle → Int → Obstacle
  | .platform p, x => .platform (p.move_horizontally x)
  | .barrier b, x => .barrier (b.move_horizontally x)

def Obstacle.right : Obstacle → Int
  | .platform p => p.right
  | .barrier b => b.right

/-- Rust `rightmost` (src/game.rs lines 1058-1064): maximum right edge, 0 for an
empty list (`unwrap_or_default`). -/
def rightmost (obstacle_list : List Obstacle) : Int :=
  ((obstacle_list.map Obstacle.right).max?).getD 0

/-! ## Segment catalog

Modelled from the spec: the module `segments` (src/segments.rs, declared in
src/lib.rs and imported by src/game.rs) is not among the repository's source
files. Per the spec (§4.3), each catalog shape is "a deterministic template
relative to a local origin, translated to the requested starting offset", the
two shapes being "stone then platform" and "platform then stone", and a
platform decomposes into two end caps plus a full-height middle box (§4.2).
The concrete template coordinates below are representative; the claims proved
against these definitions use only that they are deterministic functions of
the requested offset. -/

def FLOATING_PLATFORM_SPRITES : List String := ["13.png", "14.png", "15.png"]

def FLOATING_PLATFORM_BOUNDING_BOXES : List Rect :=
  [Rect.new_from_x_y 0 0 60 54, Rect.new_from_x_y 60 0 264 93,
    Rect.new_from_x_y 324 0 60 54]

/-- Modelled from the spec: the catalog shape "stone then platform" of the
missing `segments` module — a stone barrier then a floating platform, both
placed relative to the requested offset. -/
def stone_and_platform (stone : HtmlImageElement) (sprite_sheet : SpriteSheet)
    (offset_x : Int) : List Obstacle :=
  [.barrier (Barrier.new (Image.new stone ⟨offset_x + 150, 546⟩)),
    .platform (Platform.new sprite_sheet ⟨offset_x + 400, 400⟩
      FLOATING_PLATFORM_SPRITES FLOATING_PLATFORM_BOUNDING_BOXES)]

/-- Modelled from the spec: the catalog shape "platform then stone" of the
missing `segments` module. -/
def platform_and_stone (stone : HtmlImageElement) (sprite_sheet : SpriteSheet)
    (offset_x : Int) : List Obstacle :=
  [.platform (Platform.new sprite_sheet ⟨offset_x + 200, 400⟩
      FLOATING_PLATFORM_SPRITES FLOATING_PLATFORM_BOUNDING_BOXES),
    .barrier (Barrier.new (Image.new stone ⟨offset_x + 550, 546⟩))]

/-! ## Walk (src/game.rs lines 702-765) -/

structure Walk where
  boy : RedHatBoy
  backgrounds : Image × Image
  obstacles : List Obstacle
  obstacle_sheet : SpriteSheet
  stone : HtmlImageElement
  timeline : Int
deriving DecidableEq

def Walk.velocity (w : Walk) : Int := -w.boy.walking_speed

/-- Rust `Walk::generate_next_segment` (src/game.rs lines 716-735); the
`thread_rng().gen_range(0..2)` draw is passed in as `next_segment`. -/
def Walk.generate_next_segment (next_segment : Nat) (w : Walk) : Walk :=
  let next_obstacles :=
    match next_segment with
    | 0 => stone_and_platform w.stone w.obstacle_sheet (w.timeline + OBSTACLE_BUFFER)
    | 1 => platform_and_stone w.stone w.obstacle_sheet (w.timeline + OBSTACLE_BUFFER)
    | _ => []
  { w with
    timeline := rightmost next_obstacles
    obstacles := w.obstacles ++ next_obstacles }

def Walk.knocked_out (w : Walk) : Bool := w.boy.knocked_out

/-- Rust `Walk::reset` (src/game.rs lines 751-764). -/
def Walk.reset (walk : Walk) : Walk :=
  let starting_obstacles := stone_and_platform walk.stone walk.obstacle_sheet 0
  { boy := RedHatBoy.reset walk.boy
    backgrounds := walk.backgrounds
    obstacles := starting_obstacles
    obstacle_sheet := walk.obstacle_sheet
    stone := walk.stone
    timeline := rightmost starting_obstacles }

/-! ## Session state machine (src/game.rs lines 767-983) -/

/-- The pressed-key snapshot (`KeyState`): the set of currently-held codes. -/
structure KeyState where
  pressed_keys : List String
deriving DecidableEq

def KeyState.is_pressed (ks : KeyState) (code : String) : Bool :=
  ks.pressed_keys.contains code

inductive WalkTheDogStateMachine where
  | ready (walk : Walk)
  | walking (walk : Walk)
  | gameOver (walk : Walk)
deriving DecidableEq

inductive ReadyEndState where
  | complete (walk : Walk)
  | cont (walk : Walk)

/-- Rust `WalkTheDogState<Ready>::update` (tick the boy; ArrowRight starts running). -/
def readyUpdate (w : Walk) (ks : KeyState) : ReadyEndState :=
  let w := { w with boy := w.boy.update }
  if ks.is_pressed ("ArrowRight") then .complete { w with boy := w.boy.run_right }
  else .cont w

/-- One background's move in the walking tick: scroll by the walking speed,
wrapping a background whose right edge passed x = 0 to the right end. -/
def scrollBackground (walking_speed : Int) (bg : Image) : Image :=
  let bg := bg.move_horizontally walking_speed
  if bg.right < 0 then bg.move_horizontally (bg.bounding_box.width * 2) else bg

/-- The walking tick's obstacle pass: each obstacle is moved, then its
intersection check runs against (and may transition) the boy, in list order.
`none` propagates a panic from a missing boy sprite. -/
def moveAndCheckObstacles (walking_speed : Int) :
    List Obstacle → RedHatBoy → Option (List Obstacle × RedHatBoy)
  | [], boy => some ([], boy)
  | obstacle :: rest, boy =>
    let obstacle := obstacle.move_horizontally walking_speed
    match obstacle.check_intersection boy with
    | none => none
    | some boy =>
      match moveAndCheckObstacles walking_speed rest boy with
      | none => none
      | some (obstacles, boy) => some (obstacle :: obstacles, boy)

/-- Steps (1)-(6) of `WalkTheDogState<Walking>::update` (src/game.rs lines
878-903): input events, boy tick, scroll speed, background scroll, off-screen
pruning (before the move, as in the source), obstacle move + intersection.
Returns the walk (timeline still untouched) and the captured
`walking_speed` local. -/
def walkingStepCore (w : Walk) (ks : KeyState) : Option (Walk × Int) :=
  let boy := if ks.is_pressed ("ArrowDown") then w.boy.slide else w.boy
  let boy := if ks.is_pressed ("Space") then boy.jump else boy
  let boy := boy.update
  let walking_speed := -boy.walking_speed
  let backgrounds := (scrollBackground walking_speed w.backgrounds.1,
    scrollBackground walking_speed w.backgrounds.2)
  let kept := w.obstacles.filter fun obstacle => 0 < obstacle.right
  match moveAndCheckObstacles walking_speed kept boy with
  | none => none
  | some (obstacles, boy) =>
    some ({ w with boy := boy, backgrounds := backgrounds, obstacles := obstacles },
      walking_speed)

/-- Step (7): generate the next segment when the timeline is below the
minimum lookahead, else advance the timeline by the scroll delta
(src/game.rs lines 905-909). -/
def walkingStep (next_segment : Nat) (w : Walk) (ks : KeyState) : Option Walk :=
  (walkingStepCore w ks).map fun ws =>
    if ws.1.timeline < TIMELINE_MINIMUM then ws.1.generate_next_segment next_segment
    else { ws.1 with timeline := ws.1.timeline + ws.2 }

inductive WalkingEndState where
  | complete (walk : Walk)
  | cont (walk : Walk)

/-- Step (8): end the game when the boy ended the tick knocked out. -/
def walkingUpdate (next_segment : Nat) (w : Walk) (ks : KeyState) :
    Option WalkingEndState :=
  (walkingStep next_segment w ks).map fun w =>
    if w.knocked_out then .complete w else .cont w

inductive GameOverEndState where
  | complete (walk : Walk)
  | cont (walk : Walk)

/-- Rust `WalkTheDogState<GameOver>::update` (src/game.rs lines 964-970): poll the
restart signal (`new_game_pressed`, the single-slot click receiver); on it,
`new_game` rebuilds the walk via `Walk::reset`. -/
def gameOverUpdate (new_game_pressed : Bool) (w : Walk) : GameOverEndState :=
  if new_game_pressed then .complete (Walk.reset w) else .cont w

/-- Rust `WalkTheDogStateMachine::update` over one tick. The rng draw and the
restart signal are the two environment inputs. -/
def sessionUpdate (next_segment : Nat) (new_game_pressed : Bool)
    (m : WalkTheDogStateMachine) (ks : KeyState) : Option WalkTheDogStateMachine :=
  match m with
  | .ready walk =>
    some (match readyUpdate walk ks with
      | .complete w => .walking w
      | .cont w => .ready w)
  | .walking walk =>
    (walkingUpdate next_segment walk ks).map fun
      | .complete w => .gameOver w
      | .cont w => .walking w
  | .gameOver walk =>
    some (match gameOverUpdate new_game_pressed walk with
      | .complete w => .ready w
      | .cont w => .gameOver w)

/-! ## Derived state-machine notions used by the properties -/

/-- The per-state frame-count constant handed to `RedHatBoyContext::update`
by that state's `update` method (KnockedOut never ticks its context; its
context was produced under `FALLING_FRAMES`). -/
def stateFrames : RedHatBoyStateMachine → Nat
  | .idle _ => IDLE_FRAMES
  | .running _ => RUNNING_FRAMES
  | .sliding _ => SLIDING_FRAMES
  | .jumping _ => JUMPING_FRAMES
  | .falling _ => FALLING_FRAMES
  | .knockedOut _ => FALLING_FRAMES

/-- The frame counter is within its state's bound. -/
def frameInv (m : RedHatBoyStateMachine) : Prop :=
  m.context.frame ≤ stateFrames m

/-- The (state, event) pairs with a defined arm in
`RedHatBoyStateMachine::transition`; everything else falls to the
identity arm. -/
def hasTransition (m : RedHatBoyStateMachine) (e : Event) : Bool :=
  match m, e with
  | .idle _, .run => true
  | .running _, .slide => true
  | .running _, .jump => true
  | .running _, .knockOut => true
  | .jumping _, .knockOut => true
  | .sliding _, .knockOut => true
  | .running _, .land _ => true
  | .sliding _, .land _ => true
  | .jumping _, .land _ => true
  | .idle _, .update => true
  | .running _, .update => true
  | .sliding _, .update => true
  | .jumping _, .update => true
  | .falling _, .update => true
  | _, _ => false

/-- Termination measure for the Jumping state: distance above the floor plus
(weighted) headroom below the terminal velocity. -/
def jumpMeasure (c : RedHatBoyContext) : Nat :=
  (FLOOR - c.position.y).toNat + 25 * (TERMINAL_VELOCITY - c.velocity.y).toNat

/-! ## Concrete values used by witnesses and counterexamples -/

def audioEx : Audio := ⟨0⟩

def soundEx : Sound := ⟨0⟩

def imgElemEx : HtmlImageElement := ⟨"img.png", 600, 600⟩

def emptySheet : Sheet := ⟨[]⟩

def ssEx : SpriteSheet := ⟨emptySheet, imgElemEx⟩

def bgEx : Image := Image.new imgElemEx ⟨0, 0⟩

def ksEx : KeyState := ⟨[]⟩

/-- A fresh idle context (frame 0, start position, zero velocity). -/
def cIdle0 : RedHatBoyContext := ⟨0, ⟨-20, 479⟩, ⟨0, 0⟩, audioEx, soundEx⟩

def boyIdle : RedHatBoy := ⟨.idle cIdle0, emptySheet, imgElemEx⟩

/-- An idle-state context one tick before the frame counter wraps. -/
def cEx6 : RedHatBoyContext := ⟨28, ⟨-20, 479⟩, ⟨0, 0⟩, audioEx, soundEx⟩

/-- A falling context one tick before the fall animation completes. -/
def cFall : RedHatBoyContext := ⟨28, ⟨-20, 479⟩, ⟨0, 0⟩, audioEx, soundEx⟩

def boyFall : RedHatBoy := ⟨.falling cFall, emptySheet, imgElemEx⟩

/-- The walk for the C3 witness: the boy is one tick from knock-out, no
obstacles, timeline at the lookahead minimum. -/
def wEx3 : Walk := ⟨boyFall, (bgEx, bgEx), [], ssEx, imgElemEx, 1000⟩

/-- The knocked-out context `cFall` reaches after one tick. -/
def cKO : RedHatBoyContext := ⟨29, ⟨-20, 479⟩, ⟨0, 1⟩, audioEx, soundEx⟩

def w1Ex : Walk := ⟨⟨.knockedOut cKO, emptySheet, imgElemEx⟩, (bgEx, bgEx), [], ssEx, imgElemEx, 1000⟩

/-- The walk for the C7 witness: timeline just below the minimum. -/
def wEx7 : Walk := ⟨boyIdle, (bgEx, bgEx), [], ssEx, imgElemEx, 999⟩

/-- wEx7 after steps (1)-(6) of the walking tick (boy ticked once). -/
def wm7 : Walk :=
  ⟨⟨.idle ⟨1, ⟨-20, 479⟩, ⟨0, 1⟩, audioEx, soundEx⟩, emptySheet, imgElemEx⟩,
    (bgEx, bgEx), [], ssEx, imgElemEx, 999⟩

/-- Sprite cell giving the C2 witness boy the bounding box (105, 300, 10, 10)
of the spec's end-to-end scenario. -/
def cell2 : Cell := ⟨⟨0, 0, 38, 24⟩, ⟨0, -9, 38, 24⟩⟩

def sheet2 : Sheet := ⟨[("Run (1).png", cell2)]⟩

/-- A running boy moving downward (velocity.y = 5) at position.y = 295. -/
def boyEx2 : RedHatBoy :=
  ⟨.running ⟨0, ⟨87, 295⟩, ⟨0, 5⟩, audioEx, soundEx⟩, sheet2, imgElemEx⟩

def bbEx2 : Rect := ⟨⟨105, 300⟩, 10, 10⟩

/-- A platform anchored at y = 400 with one collision box at (100, 305, 60, 20). -/
def pEx2 : Platform :=
  Platform.new ssEx ⟨100, 400⟩ FLOATING_PLATFORM_SPRITES
    [Rect.new_from_x_y 0 (-95) 60 20]

def brEx2 : Barrier := Barrier.new (Image.new imgElemEx ⟨110, 305⟩)

/-- A walk whose backgrounds have scrolled (first one at x = 7). -/
def wC1 : Walk :=
  ⟨boyIdle, (Image.new imgElemEx ⟨7, 0⟩, Image.new imgElemEx ⟨607, 0⟩),
    [], ssEx, imgElemEx, 0⟩

def missingName : List String := ["404.png"]

def boxC9 : List Rect := [Rect.new_from_x_y 0 0 10 10]

/-! ## Helper lemmas -/

/-- Unfolded form of a rect intersection test. -/
theorem intersects_iff (u v : Rect) :
    u.intersects v = true ↔
      (u.x < v.right ∧ v.x < u.right ∧ u.y < v.bottom ∧ v.y < u.bottom) := by
  simp only [Rect.intersects, Bool.and_eq_true, decide_eq_true_eq, gt_iff_lt]
  tauto

/-- No transition of the character state machine moves `position.x`. -/
theorem transition_position_x (m : RedHatBoyStateMachine) (e : Event) :
    (transition m e).context.position.x = m.context.position.x := by
  cases m <;> cases e <;> try rfl
  all_goals rename_i c
  · show ((slidingUpdate c).toMachine).context.position.x = c.position.x
    simp only [slidingUpdate]
    split <;> rfl
  · show ((jumpingUpdate c).toMachine).context.position.x = c.position.x
    simp only [jumpingUpdate]
    split <;> rfl
  · show ((fallingUpdate c).toMachine).context.position.x = c.position.x
    simp only [fallingUpdate]
    split <;> rfl

/-- The frame counter never leaves the bound handed to the context tick. -/
theorem update_frame_le (c : RedHatBoyContext) (n : Nat) : (c.update n).frame ≤ n := by
  simp only [RedHatBoyContext.update]
  split <;> omega

/-- The per-state frame bound is preserved by one machine tick. -/
theorem frameInv_update (m : RedHatBoyStateMachine) (hm : frameInv m) :
    frameInv m.update := by
  cases m with
  | idle c => exact update_frame_le c IDLE_FRAMES
  | running c => exact update_frame_le c RUNNING_FRAMES
  | sliding c =>
    show frameInv (slidingUpdate c).toMachine
    simp only [slidingUpdate]
    split
    · exact Nat.zero_le _
    · exact update_frame_le c SLIDING_FRAMES
  | jumping c =>
    show frameInv (jumpingUpdate c).toMachine
    simp only [jumpingUpdate]
    split
    · exact Nat.zero_le _
    · exact update_frame_le c JUMPING_FRAMES
  | falling c =>
    show frameInv (fallingUpdate c).toMachine
    simp only [fallingUpdate]
    split
    · exact update_frame_le c FALLING_FRAMES
    · exact update_frame_le c FALLING_FRAMES
  | knockedOut c => exact hm

/-- The per-state frame bound is preserved by any number of machine ticks. -/
theorem frameInv_iterate (k : Nat) (m : RedHatBoyStateMachine) (hm : frameInv m) :
    frameInv (machineIterate k m) := by
  induction k generalizing m with
  | zero => exact hm
  | succ k ih => exact ih _ (frameInv_update m hm)

/-! ## Helper lemmas for the Jumping termination argument -/

/-- Landing on HEIGHT places the character exactly at the floor
(HEIGHT - PLAYER_HEIGHT = FLOOR). -/
theorem landOn_height_floor (c : RedHatBoyContext) :
    (jumpingLandOn c HEIGHT).position.y = FLOOR := by
  simp only [jumpingLandOn, RedHatBoyContext.set_on, RedHatBoyContext.reset_frame]
  decide

/-- A jumping tick whose updated context reached the floor completes into
Running via land_on(HEIGHT). -/
theorem jumping_step_complete (c : RedHatBoyContext)
    (hc : FLOOR ≤ (c.update JUMPING_FRAMES).position.y) :
    (RedHatBoyStateMachine.jumping c).update =
      .running (jumpingLandOn (c.update JUMPING_FRAMES) HEIGHT) := by
  show ((jumpingUpdate c).toMachine) = _
  simp only [jumpingUpdate]
  rw [if_pos hc]
  rfl

/-- A jumping tick still above the floor stays Jumping with the updated
context. -/
theorem jumping_step_cont (c : RedHatBoyContext)
    (hc : ¬ FLOOR ≤ (c.update JUMPING_FRAMES).position.y) :
    (RedHatBoyStateMachine.jumping c).update = .jumping (c.update JUMPING_FRAMES) := by
  show ((jumpingUpdate c).toMachine) = _
  simp only [jumpingUpdate]
  rw [if_neg hc]
  rfl

/-- Gravity keeps the vertical velocity within [JUMP_SPEED, TERMINAL_VELOCITY]. -/
theorem update_velocity_bounds (c : RedHatBoyContext) (fc : Nat)
    (h1 : JUMP_SPEED ≤ c.velocity.y) (h2 : c.velocity.y ≤ TERMINAL_VELOCITY) :
    JUMP_SPEED ≤ (c.update fc).velocity.y
      ∧ (c.update fc).velocity.y ≤ TERMINAL_VELOCITY := by
  simp only [RedHatBoyContext.update, JUMP_SPEED, TERMINAL_VELOCITY, GRAVITY]
    at h1 h2 ⊢
  split_ifs <;> omega

/-- The jump measure strictly decreases on a tick that does not complete. -/
theorem jumpMeasure_decreases (c : RedHatBoyContext)
    (h1 : JUMP_SPEED ≤ c.velocity.y) (h2 : c.velocity.y ≤ TERMINAL_VELOCITY)
    (hc : ¬ FLOOR ≤ (c.update JUMPING_FRAMES).position.y) :
    jumpMeasure (c.update JUMPING_FRAMES) < jumpMeasure c := by
  simp only [jumpMeasure, RedHatBoyContext.update, JUMP_SPEED, TERMINAL_VELOCITY,
    GRAVITY, FLOOR] at h1 h2 hc ⊢
  split_ifs at hc ⊢ <;> omega

/-- At measure zero (at the floor with terminal velocity) the next tick
completes. -/
theorem jumpMeasure_zero_complete (c : RedHatBoyContext)
    (h2 : c.velocity.y ≤ TERMINAL_VELOCITY) (h0 : jumpMeasure c = 0) :
    FLOOR ≤ (c.update JUMPING_FRAMES).position.y := by
  simp only [jumpMeasure, RedHatBoyContext.update, TERMINAL_VELOCITY, GRAVITY,
    FLOOR] at h0 h2 ⊢
  split_ifs <;> omega

/-- Fuel induction: from any jumping context with in-range vertical velocity,
repeated ticks reach Running at the floor. -/
theorem jumping_reaches_floor (μ : Nat) (c : RedHatBoyContext)
    (h1 : JUMP_SPEED ≤ c.velocity.y) (h2 : c.velocity.y ≤ TERMINAL_VELOCITY)
    (hμ : jumpMeasure c ≤ μ) :
    ∃ n cr, machineIterate n (.jumping c) = .running cr ∧ cr.position.y = FLOOR := by
  induction μ generalizing c with
  | zero =>
    have hc := jumpMeasure_zero_complete c h2 (Nat.le_zero.mp hμ)
    exact ⟨1, jumpingLandOn (c.update JUMPING_FRAMES) HEIGHT,
      by simp [machineIterate, jumping_step_complete c hc], landOn_height_floor _⟩
  | succ μ ih =>
    by_cases hc : FLOOR ≤ (c.update JUMPING_FRAMES).position.y
    · exact ⟨1, jumpingLandOn (c.update JUMPING_FRAMES) HEIGHT,
        by simp [machineIterate, jumping_step_complete c hc], landOn_height_floor _⟩
    · obtain ⟨hb1, hb2⟩ := update_velocity_bounds c JUMPING_FRAMES h1 h2
      have hd := jumpMeasure_decreases c h1 h2 hc
      obtain ⟨n, cr, hit, hy⟩ := ih (c.update JUMPING_FRAMES) hb1 hb2 (by omega)
      refine ⟨n + 1, cr, ?_, hy⟩
      show machineIterate n ((RedHatBoyStateMachine.jumping c).update) = _
      rw [jumping_step_cont c hc]
      exact hit

/-! ## Claim C4 -/

/-- Claim C4: from Running, the Jump event yields Jumping with
velocity.y = JUMP_SPEED = -25 and frame = 0, and from there repeated Ticks
(gravity 1 per tick capped at terminal velocity 20, position clamped at the
floor) return the machine to Running at floor height after a finite number
of ticks. -/
theorem c4_jump_terminates (c : RedHatBoyContext) :
    ∃ j, transition (.running c) .jump = .jumping j
      ∧ j.velocity.y = JUMP_SPEED ∧ j.frame = 0
      ∧ ∃ n cr, machineIterate n (.jumping j) = .running cr
          ∧ cr.position.y = FLOOR := by
  refine ⟨runningJump c, rfl, rfl, rfl, ?_⟩
  exact jumping_reaches_floor (jumpMeasure (runningJump c)) (runningJump c)
    (le_refl _) (by show JUMP_SPEED ≤ TERMINAL_VELOCITY; decide) (le_refl _)

/-! ## Claim C5 -/

/-- Claim C5: two rects intersect exactly when each one's left edge is
strictly left of the other's right edge and each one's top edge is strictly
above the other's bottom edge; intersection is symmetric; touching rects
(a.right = b.x) do not intersect. -/
theorem c5_rect_intersects (a b : Rect) :
    (a.intersects b = true ↔
      (a.x < b.right ∧ b.x < a.right ∧ a.y < b.bottom ∧ b.y < a.bottom))
    ∧ a.intersects b = b.intersects a
    ∧ (a.right = b.x → a.intersects b = false) := by
  refine ⟨intersects_iff a b, ?_, fun h => ?_⟩
  · cases hab : a.intersects b <;> cases hba : b.intersects a <;> try rfl
    · obtain ⟨h1, h2, h3, h4⟩ := (intersects_iff b a).mp hba
      have : a.intersects b = true := (intersects_iff a b).mpr ⟨h2, h1, h4, h3⟩
      rw [hab] at this
      exact this
    · obtain ⟨h1, h2, h3, h4⟩ := (intersects_iff a b).mp hab
      have : b.intersects a = true := (intersects_iff b a).mpr ⟨h2, h1, h4, h3⟩
      rw [hba] at this
      exact this.symm
  · cases hab : a.intersects b
    · rfl
    · obtain ⟨h1, h2, h3, h4⟩ := (intersects_iff a b).mp hab
      omega

/-! ## Claim C8 -/

/-- Claim C8: the character transition function is total, with an identity
fallback: every (state, event) pair without a defined arm returns the machine
unchanged, and KnockedOut is absorbing under every event (Tick included). -/
theorem c8_identity_fallback (m : RedHatBoyStateMachine) (e : Event)
    (h : hasTransition m e = false) :
    transition m e = m
    ∧ ∀ c e2, transition (.knockedOut c) e2 = .knockedOut c := by
  refine ⟨?_, fun c e2 => by cases e2 <;> rfl⟩
  cases m <;> cases e <;> first | rfl | simp [hasTransition] at h

/-- Witness for C8: Jump while Idle is an identity no-op. -/
theorem c8_witness : transition (.idle cIdle0) .jump = .idle cIdle0 :=
  (c8_identity_fallback (.idle cIdle0) .jump rfl).1

/-! ## Claim C9 -/

/-- Counterexample to C9 as stated: constructing a Platform from a sheet
missing the requested sprite name does not fail at all — the lookup is
silently skipped (`filter_map`), leaving the platform with no sprites while
its bounding boxes stand. -/
theorem c9_counterexample :
    (Platform.new ssEx ⟨0, 0⟩ missingName boxC9).sprites = []
    ∧ (Platform.new ssEx ⟨0, 0⟩ missingName boxC9).bounding_boxes
        = [Rect.new_from_x_y 0 0 10 10] := by
  exact ⟨rfl, rfl⟩

/-- Claim C9 (amended): the character's current-sprite lookup fails fast —
the destination box computation panics (models as `none`) exactly when the
computed frame name is missing from the atlas — while `Platform::new`
silently filters out missing sprite names instead of failing. -/
theorem c9_sprite_lookup (b : RedHatBoy) (sheet : SpriteSheet) (position : Point)
    (sprite_names : List String) (bounding_boxes : List Rect) :
    (b.destination_box = none ↔ b.current_sprite = none)
    ∧ (Platform.new sheet position sprite_names bounding_boxes).sprites
        = sprite_names.filterMap (fun sprite_name => sheet.cell sprite_name) := by
  refine ⟨?_, rfl⟩
  cases hs : b.current_sprite <;> simp [RedHatBoy.destination_box, hs]

/-! ## Claim C1 -/

/-- Counterexample to C1 as stated: `Walk::reset` does not reset the
background images — a walk whose first background has scrolled to x = 7
keeps it at x = 7 (not back at the starting x = 0) after reset. -/
theorem c1_counterexample :
    (Walk.reset wC1).backgrounds = wC1.backgrounds
    ∧ (Walk.reset wC1).backgrounds.1.bounding_box.position.x = 7
    ∧ ¬ (Walk.reset wC1).backgrounds.1.bounding_box.position.x = 0 := by
  refine ⟨rfl, rfl, by decide⟩

/-- Claim C1 (amended): `Walk::reset` builds a fresh boy (new idle character
at the start position, reusing the sheet, image and audio handles), a fresh
initial segment generated at offset 0, the timeline at that segment's
rightmost edge, and carries the backgrounds over unchanged (it does not
reset them); reset is idempotent, so two restart signals produce the same
fresh state with no obstacles accumulated from the prior run. -/
theorem c1_reset_fresh (w : Walk) :
    (Walk.reset w).boy = RedHatBoy.new w.boy.sprite_sheet w.boy.image
        w.boy.state_machine.context.audio w.boy.state_machine.context.jump_sound
    ∧ (Walk.reset w).boy.state_machine.context.position = ⟨STARTING_POINT, FLOOR⟩
    ∧ (Walk.reset w).obstacles = stone_and_platform w.stone w.obstacle_sheet 0
    ∧ (Walk.reset w).timeline = rightmost (stone_and_platform w.stone w.obstacle_sheet 0)
    ∧ (Walk.reset w).backgrounds = w.backgrounds
    ∧ Walk.reset (Walk.reset w) = Walk.reset w := by
  refine ⟨rfl, rfl, rfl, rfl, rfl, rfl⟩

/-! ## Claim C2 -/

/-- Claim C2: a Platform's intersection check finds the first of its bounding
boxes intersecting the character's box; on a hit it emits Land(box.y) when
the character moves downward (velocity.y > 0) with its vertical position
above the platform's anchor, else KnockOut; a Barrier emits KnockOut on any
intersection and never a landing; with no intersection the character is
unchanged. -/
theorem c2_check_intersection (p : Platform) (br : Barrier) (boy : RedHatBoy)
    (bb : Rect) (hbb : boy.bounding_box = some bb) :
    (∀ box, p.bounding_boxes.find? (fun b => bb.intersects b) = some box →
        ((boy.velocity_y > 0 ∧ boy.pos_y < p.position.y) →
            p.check_intersection boy = some (boy.land_on box.y))
        ∧ (¬(boy.velocity_y > 0 ∧ boy.pos_y < p.position.y) →
            p.check_intersection boy = some boy.knock_out))
    ∧ (p.bounding_boxes.find? (fun b => bb.intersects b) = none →
        p.check_intersection boy = some boy)
    ∧ (bb.intersects br.image.bounding_box = true →
        br.check_intersection boy = some boy.knock_out)
    ∧ (bb.intersects br.image.bounding_box = false →
        br.check_intersection boy = some boy) := by
  have he : ∀ box, p.bounding_boxes.find? (fun b => bb.intersects b) = some box →
      p.bounding_boxes.isEmpty = false := by
    intro box hf
    cases hbs : p.bounding_boxes
    · rw [hbs] at hf
      simp at hf
    · simp [hbs]
  refine ⟨fun box hf => ⟨fun hcond => ?_, fun hcond => ?_⟩, fun hf => ?_,
    fun hi => ?_, fun hi => ?_⟩
  · simp [Platform.check_intersection, he box hf, hbb, hf, hcond]
  · simp [Platform.check_intersection, he box hf, hbb, hf, hcond]
  · by_cases hemp : p.bounding_boxes.isEmpty <;>
      simp [Platform.check_intersection, hemp, hbb, hf]
  · simp [Barrier.check_intersection, hbb, hi]
  · simp [Barrier.check_intersection, hbb, hi]

/-- Witness for C2: the spec's end-to-end scenario — a downward-moving boy
with bounding box (105, 300, 10, 10) above a platform anchored at y = 400
lands on the intersected box's top edge (305); the same boy intersecting a
barrier is knocked out. -/
theorem c2_witness :
    pEx2.check_intersection boyEx2 = some (boyEx2.land_on 305)
    ∧ brEx2.check_intersection boyEx2 = some boyEx2.knock_out := by
  have h := c2_check_intersection pEx2 brEx2 boyEx2 bbEx2 (by decide)
  exact ⟨(h.1 (Rect.new_from_x_y 100 305 60 20) (by decide)).1 (by decide),
    h.2.2.1 (by decide)⟩

/-! ## Claim C3 -/

/-- Claim C3: a walking tick that ends with the character knocked out moves
the session to GameOver (once); in GameOver each tick only polls the restart
signal — without it the walk is left unchanged and the session stays in
GameOver (never re-triggering), and with it the session moves to Ready. -/
theorem c3_game_over_once (next_segment : Nat) (restart : Bool) (w w1 : Walk)
    (ks : KeyState) (h : walkingStep next_segment w ks = some w1)
    (hk : w1.knocked_out = true) :
    sessionUpdate next_segment restart (.walking w) ks = some (.gameOver w1)
    ∧ (∀ w2 ks2 n2, sessionUpdate n2 false (.gameOver w2) ks2 = some (.gameOver w2))
    ∧ (∀ w2 ks2 n2,
        sessionUpdate n2 true (.gameOver w2) ks2 = some (.ready (Walk.reset w2))) := by
  refine ⟨?_, fun w2 ks2 n2 => rfl, fun w2 ks2 n2 => rfl⟩
  simp [sessionUpdate, walkingUpdate, h, hk]

/-- Witness for C3: a concrete walk one tick from knock-out reaches GameOver
in one tick, and the GameOver session moves to Ready exactly when the restart
signal fires. -/
theorem c3_witness :
    sessionUpdate 0 false (.walking wEx3) ksEx = some (.gameOver w1Ex)
    ∧ sessionUpdate 0 false (.gameOver w1Ex) ksEx = some (.gameOver w1Ex)
    ∧ sessionUpdate 0 true (.gameOver w1Ex) ksEx = some (.ready (Walk.reset w1Ex)) := by
  have h := c3_game_over_once 0 false wEx3 w1Ex ksEx (by decide) (by decide)
  exact ⟨h.1, h.2.1 w1Ex ksEx 0, h.2.2 w1Ex ksEx 0⟩

/-! ## Claim C7 -/

/-- Claim C7: in a walking tick, the timeline is untouched until step (7);
there, if it is below the 1000-unit minimum, the chosen segment is generated
with requested starting offset timeline + 20 (OBSTACLE_BUFFER), its obstacles
are appended to the active collection and the timeline is set to the
rightmost edge of the newly generated obstacles; otherwise the timeline just
advances by the per-tick scroll delta. -/
theorem c7_segment_generation (w wm : Walk) (ks : KeyState) (speed : Int)
    (h : walkingStepCore w ks = some (wm, speed)) :
    wm.timeline = w.timeline
    ∧ (wm.timeline < TIMELINE_MINIMUM →
        walkingStep 0 w ks = some { wm with
          obstacles := wm.obstacles ++
            stone_and_platform wm.stone wm.obstacle_sheet (wm.timeline + OBSTACLE_BUFFER)
          timeline := rightmost
            (stone_and_platform wm.stone wm.obstacle_sheet (wm.timeline + OBSTACLE_BUFFER)) }
        ∧ walkingStep 1 w ks = some { wm with
          obstacles := wm.obstacles ++
            platform_and_stone wm.stone wm.obstacle_sheet (wm.timeline + OBSTACLE_BUFFER)
          timeline := rightmost
            (platform_and_stone wm.stone wm.obstacle_sheet (wm.timeline + OBSTACLE_BUFFER)) })
    ∧ (TIMELINE_MINIMUM ≤ wm.timeline → ∀ next_segment,
        walkingStep next_segment w ks = some { wm with timeline := wm.timeline + speed }) := by
  refine ⟨?_, fun hlt => ⟨?_, ?_⟩, fun hge next_segment => ?_⟩
  · simp only [walkingStepCore] at h
    split at h
    · cases h
    · rw [Option.some_inj, Prod.mk.injEq] at h
      rw [← h.1]
  · simp only [walkingStep, h, Option.map_some']
    rw [if_pos hlt]
    rfl
  · simp only [walkingStep, h, Option.map_some']
    rw [if_pos hlt]
    rfl
  · simp only [walkingStep, h, Option.map_some']
    rw [if_neg (not_lt.mpr hge)]

/-- Witness for C7: a concrete walk with timeline 999 (below the minimum)
generates the stone-then-platform segment at requested offset 999 + 20 and
sets the timeline to its rightmost edge. -/
theorem c7_witness :
    walkingStep 0 wEx7 ksEx = some { wm7 with
      obstacles := wm7.obstacles ++
        stone_and_platform wm7.stone wm7.obstacle_sheet (wm7.timeline + OBSTACLE_BUFFER)
      timeline := rightmost
        (stone_and_platform wm7.stone wm7.obstacle_sheet (wm7.timeline + OBSTACLE_BUFFER)) } :=
  ((c7_segment_generation wEx7 wm7 ksEx 0 (by decide)).2.1 (by decide)).1

/-! ## Claim C6 -/

/-- Counterexample to C6 as stated: with N = IDLE_FRAMES = 29 (the idle
state's frame-count constant), a context at frame 28 ticks to frame 29, not
to (28 + 1) % 29 = 0 — the counter wraps only after exceeding N, i.e. modulo
N + 1. -/
theorem c6_counterexample :
    ¬ ((cEx6.update IDLE_FRAMES).frame = (cEx6.frame + 1) % IDLE_FRAMES) := by
  decide

/-- Claim C6 (amended): each Tick increments the frame counter modulo N + 1 —
it steps to frame + 1 while frame < N and wraps to 0 at N — so the counter
never exceeds the state's frame-count constant N; the bound holds for every
state of the machine under any number of Ticks. -/
theorem c6_frame_modulo (n k : Nat) (c : RedHatBoyContext)
    (m : RedHatBoyStateMachine) (h : c.frame ≤ n) (hm : frameInv m) :
    (c.update n).frame = (c.frame + 1) % (n + 1)
    ∧ (c.update n).frame ≤ n
    ∧ frameInv (machineIterate k m) := by
  refine ⟨?_, update_frame_le c n, frameInv_iterate k m hm⟩
  simp only [RedHatBoyContext.update]
  split
  · exact (Nat.mod_eq_of_lt (by omega)).symm
  · have hf : c.frame = n := by omega
    rw [hf, Nat.mod_self]

/-- Witness for C6: the idle state ticking from frame 0 with bound 5 steps to
(0 + 1) % 6 = 1 and stays within the bound for three machine ticks. -/
theorem c6_witness :
    (cIdle0.update 5).frame = (cIdle0.frame + 1) % 6
    ∧ (cIdle0.update 5).frame ≤ 5
    ∧ frameInv (machineIterate 3 (.idle cIdle0)) :=
  c6_frame_modulo 5 3 cIdle0 (.idle cIdle0) (by decide)
    (show (RedHatBoyStateMachine.idle cIdle0).context.frame
        ≤ stateFrames (.idle cIdle0) by decide)

/-! ## Claim C10 -/

/-- Claim C10: no operation of the character state machine (any transition
event, Tick included, iterated any number of times) ever changes
`position.x`, and the world's scroll delta is the negated walking speed
(`Walk::velocity` = -velocity.x of the character). -/
theorem c10_position_x_fixed (m : RedHatBoyStateMachine) (e : Event) (w : Walk) :
    (transition m e).context.position.x = m.context.position.x
    ∧ (∀ k, (machineIterate k m).context.position.x = m.context.position.x)
    ∧ Walk.velocity w = -w.boy.state_machine.context.velocity.x := by
  refine ⟨transition_position_x m e, fun k => ?_, rfl⟩
  induction k generalizing m with
  | zero => rfl
  | succ k ih => exact (ih m.update).trans (transition_position_x m .update)

end WalkTheDog
